import Mathlib

/-!
Shallow embedding of `src/utkarshpy/cli.py`, a command-line bootstrapper for
Python projects, together with proofs about its command runner, its download
helper, its interactive input handling and the control flow of `main`.

Conventions used throughout:

* Machine-facing effects (child processes, the network, the console, stdin)
  are injected as explicit oracle values, so every definition is executable.
* Exit codes are integers; `sys.exit(c)` is modelled as a terminal outcome
  carrying `c`; an exception that no handler catches is modelled as an
  `uncaught` outcome carrying the exception name.
* The POSIX branch of the source is modelled (the Windows branches differ
  only in shell/path strings, which no property below depends on).
-/

/-- Result record of a captured command execution, mirroring the
`subprocess.CompletedProcess` value returned by `run_command`. -/
structure CommandResult where
  returncode : Int
  stdout : String
  stderr : String
  deriving DecidableEq

/-- Outcome of asking the OS to spawn the shell for one command: either the
shell started and the commanded execution completed with an exit code and
captured output, or the OS could not start the shell executable (Python's
`subprocess` then raises `FileNotFoundError`). Note that with `shell=True`,
a missing *tool* inside the command string is reported by the shell itself
as a `completed` outcome with exit code 127, not as a spawn failure. -/
inductive SpawnOutcome where
  | completed (exitCode : Int) (stdout stderr : String)
  | spawnFailure
  deriving DecidableEq

/-- How a call to `run_command` ends: it returns a value (`none` in live
mode, a `CommandResult` otherwise), or it terminates the process via
`sys.exit`, or it lets an exception propagate to its caller. -/
inductive RunOutcome where
  | returned (r : Option CommandResult)
  | exited (code : Int)
  | raised (exc : String)
  deriving DecidableEq

/-- A `run_command` call's outcome together with the lines it printed. -/
structure RunResult where
  outcome : RunOutcome
  printed : List String
  deriving DecidableEq

/-- Embedding of `run_command` (cli.py lines 28-64). In live mode the child
inherits the console and a nonzero exit under `check` terminates the process
with that exit code. In captured mode `subprocess.run(check=check)` raises
`CalledProcessError` exactly when `check` holds and the exit code is nonzero;
the handler prints the captured stderr and calls `sys.exit(1)`; otherwise the
`CompletedProcess` is returned unchanged. The `try` block catches only
`CalledProcessError`, so a spawn failure propagates. -/
def run_command (spawn : SpawnOutcome) (check : Bool) (live_output : Bool) :
    RunResult :=
  match spawn with
  | .spawnFailure => ⟨.raised "FileNotFoundError", []⟩
  | .completed code out err =>
    if live_output then
      if code ≠ 0 ∧ check then ⟨.exited code, []⟩ else ⟨.returned none, []⟩
    else
      if check ∧ code ≠ 0 then
        ⟨.exited 1, ["✗ Command failed: " ++ err]⟩
      else ⟨.returned (some ⟨code, out, err⟩), []⟩

/-- True on the ASCII whitespace characters that Python's `str.strip()` with
no argument removes. -/
def pySpace (c : Char) : Bool :=
  c = ' ' || c = '\t' || c = '\n' || c = '\r' || c = '\x0b' || c = '\x0c'

/-- Embedding of Python `str.strip()` on the ASCII data this program handles:
drop leading and trailing whitespace. -/
def pyStrip (s : String) : String :=
  String.mk (((s.toList.dropWhile pySpace).reverse.dropWhile pySpace).reverse)

/-- Embedding of Python `str.lower()` on the ASCII data this program
handles. -/
def pyLower (s : String) : String :=
  String.mk (s.toList.map Char.toLower)

/-- Embedding of Python `str.split()` with no argument: split on whitespace
runs, dropping empty pieces (used by `has_origin_remote`). -/
def pySplit (s : String) : List String :=
  ((s.toList.splitOnP pySpace).map String.mk).filter (fun t => t ≠ "")

/-- A character matched by the class `[a-zA-Z0-9_-]` of the repository-name
pattern in `main` (cli.py line 392). -/
def allowedChar (c : Char) : Bool :=
  ('a' ≤ c && c ≤ 'z') || ('A' ≤ c && c ≤ 'Z') || ('0' ≤ c && c ≤ '9') ||
    c = '_' || c = '-'

/-- Embedding of the repository-name validation in `main` (cli.py line 392):
`re.match` of the anchored pattern against the already-stripped candidate
succeeds exactly when the candidate is nonempty and every character is in the
allowed class. (Python's trailing `$` would also tolerate a single trailing
newline, but the candidate is always produced by `.strip()`, so that case is
unreachable in this program.) -/
def validRepoName (s : String) : Bool :=
  s != "" && s.toList.all allowedChar

/-- The specification's reading of the pattern `^[A-Za-z0-9_-]+$`: a nonempty
string all of whose characters lie in the allowed class. Stated independently
of `validRepoName` so that claim C6 can compare the two. -/
def matchesNamePattern (s : String) : Prop :=
  s.toList ≠ [] ∧ ∀ c ∈ s.toList, allowedChar c = true

/-- Embedding of the visibility selection in `main` (cli.py lines 396-399):
the raw prompt answer is stripped and lowercased, then kept only if it is
exactly `public` or `private`, and replaced by `public` otherwise. -/
def chooseVisibility (raw : String) : String :=
  let v := pyLower (pyStrip raw)
  if v = "public" ∨ v = "private" then v else "public"

/-- A flat filesystem: an association list from file name to content. -/
def Fs := List (String × String)

/-- Content of a file, if present. -/
def fsLookup : Fs → String → Option String
  | [], _ => none
  | (q, c) :: rest, p => if q = p then some c else fsLookup rest p

/-- Whether a file exists (`os.path.exists`). -/
def fsHas (fs : Fs) (p : String) : Bool :=
  (fsLookup fs p).isSome

/-- Delete a file (`os.remove`). -/
def fsRemove (fs : Fs) (p : String) : Fs :=
  fs.filter (fun e => e.1 ≠ p)

/-- Create or overwrite a file with the given content. -/
def fsSet (fs : Fs) (p c : String) : Fs :=
  (p, c) :: fsRemove fs p

/-- Outcome of reading the body of an HTTP response: the full data, or a
transport error raised part-way through `response.read()`. -/
inductive ReadOutcome where
  | ok (data : String)
  | readError
  deriving DecidableEq

/-- The network oracle for one `urlopen` call: either the connection attempt
itself raises, or a response arrives with a status code and a body-read
outcome. -/
inductive Fetch where
  | connectFailure
  | response (status : Int) (body : ReadOutcome)
  deriving DecidableEq

/-- How a step that may call `sys.exit` ends. -/
inductive StepOut where
  | ok
  | exit (code : Int)
  deriving DecidableEq

/-- Embedding of `download_files` (cli.py lines 67-80), preserving statement
order: the status check happens before the target is opened, then
`open(filename, "wb")` creates or truncates the target, and only then is the
body read and written (`f.write(response.read())` evaluates the read first).
Every exception is caught by the blanket handler, which prints a failure
message and calls `sys.exit(1)`. Returns the outcome, the filesystem after
the call, and the printed lines. -/
def download_files (net : Fetch) (filename : String) (fs : Fs) :
    StepOut × Fs × List String :=
  match net with
  | .connectFailure =>
      (.exit 1, fs, ["✗ Failed to download " ++ filename])
  | .response status body =>
      if status ≠ 200 then
        (.exit 1, fs, ["✗ Failed to download " ++ filename])
      else
        let fs1 := fsSet fs filename ""
        match body with
        | .readError => (.exit 1, fs1, ["✗ Failed to download " ++ filename])
        | .ok data => (.ok, fsSet fs1 filename data, ["✓ Downloaded " ++ filename])

/-- The conditional download pattern of `create_basic_files`: fetch only when
the target does not already exist. -/
def ensureDownload (net : Fetch) (filename : String) (fs : Fs) :
    StepOut × Fs × List String :=
  if fsHas fs filename then (.ok, fs, []) else download_files net filename fs

/-- Embedding of `create_basic_files` (cli.py lines 150-171): download the
ignore file and then the license, each only when absent, then unconditionally
(re)write `README.md` titled after the current directory name. A fatal
download terminates the process there, leaving the filesystem as it stood. -/
def create_basic_files (netGitignore netLicense : Fetch) (dirname : String)
    (fs : Fs) : StepOut × Fs × List String :=
  let p0 := ["📂 Creating project structure..."]
  match ensureDownload netGitignore ".gitignore" fs with
  | (.exit c, fs1, p1) => (.exit c, fs1, p0 ++ p1)
  | (.ok, fs1, p1) =>
    match ensureDownload netLicense "LICENSE" fs1 with
    | (.exit c, fs2, p2) => (.exit c, fs2, p0 ++ p1 ++ p2)
    | (.ok, fs2, p2) =>
      let fs3 := fsSet fs2 "README.md"
        ("# " ++ dirname ++ "\n\n## Project Description\n")
      (.ok, fs3, p0 ++ p1 ++ p2 ++ ["✓ Created README.md"])

/-- Embedding of `initialize_uv` over the filesystem (cli.py lines 131-147).
`uvInit` is the external effect of `uv init .` on the directory (the package
manager may create the manifest and an ignore file of its own); it is a
parameter because its output belongs to the external tool. After the
conditional manifest initialization, the removal of `.gitignore` is
unconditional on how that file came to exist. Returns the filesystem and the
commands run. -/
def init_uv (uvInstalled : Bool) (uvInit : Fs → Fs) (fs : Fs) :
    Fs × List String :=
  let cmds := if uvInstalled then ["uv --version"]
              else ["uv --version", "pip install uv"]
  let step2 : Fs × List String :=
    if fsHas fs "pyproject.toml" then (fs, cmds)
    else (uvInit fs, cmds ++ ["uv init ."])
  if fsHas step2.1 ".gitignore" then (fsRemove step2.1 ".gitignore", step2.2)
  else step2

/-- One answer source for a call to `input()`: a line of text, or a
user-initiated interruption (`KeyboardInterrupt`) raised by the call. -/
inductive InputEvent where
  | text (s : String)
  | interrupt
  deriving DecidableEq

/-- Observable events of a `main` run, in order: console prints, read-only
probe commands, interactive prompts, mutating steps (file writes or
deletions, setup commands), and the remote-repository creation command with
the name and visibility it receives. -/
inductive Event where
  | printed (s : String)
  | probe (cmd : String)
  | prompt (msg : String)
  | mutStep (desc : String)
  | remoteCreate (name visibility : String)
  deriving DecidableEq

/-- The file-existence facts `main` branches on, as booleans. -/
structure FsB where
  pyproject : Bool
  gitignore : Bool
  license : Bool
  venv : Bool
  requirements : Bool
  templatePy : Bool
  deriving DecidableEq

/-- The environment a `main` run observes: interpreter version (first two
components of `sys.version_info`), the `--no-push` flag, probe results,
external-tool facts, the initial filesystem facts and the stdin script. -/
structure Env where
  version : Nat × Nat
  noPush : Bool
  gitRepo : Bool
  gitRemoteStdout : String
  ghInstalled : Bool
  authenticated : Bool
  gitUserName : String
  gitUserEmail : String
  githubUsername : String
  uvInstalled : Bool
  uvInitGitignore : Bool
  commitOk : Bool
  fs0 : FsB
  inputs : List InputEvent
  deriving DecidableEq

/-- Running state of a `main` run: events so far, current filesystem facts,
remaining stdin script. -/
structure St where
  events : List Event
  fs : FsB
  inputs : List InputEvent
  deriving DecidableEq

/-- Append one event. -/
def St.emit (s : St) (e : Event) : St :=
  { s with events := s.events ++ [e] }

/-- Append several events. -/
def St.emits (s : St) (es : List Event) : St :=
  { s with events := s.events ++ es }

/-- Final observation of a `main` run: a `sys.exit` code, an exception that
escaped `main` (the interpreter then prints a stack trace), or running off
the end of `main` (a normal exit). -/
inductive MOutcome where
  | exited (code : Int)
  | uncaught (exc : String)
  | completed
  deriving DecidableEq

/-- Outcome of a finished run together with its full event trace. -/
structure MainRes where
  outcome : MOutcome
  events : List Event
  deriving DecidableEq

/-- Python tuple comparison of `(major, minor)` against `(3, 8)` as used by
`check_python_version` (extra `sys.version_info` components cannot affect
this comparison). -/
def versionLt38 (v : Nat × Nat) : Bool :=
  v.1 < 3 || (v.1 = 3 && v.2 < 8)

/-- Embedding of `check_python_version` at its call site (cli.py lines 84-88
and 378): below 3.8, print the requirement and exit 1; otherwise fall
through. -/
def checkVersionPhase (v : Nat × Nat) (s : St) : MainRes ⊕ St :=
  if versionLt38 v then
    .inl ⟨.exited 1, (s.emit (.printed "✗ Python 3.8 or higher required")).events⟩
  else .inr s

/-- Embedding of `is_git_repo` (cli.py lines 328-333): one non-fatal probe
command, interpreted as a boolean supplied by the environment. -/
def is_git_repo (gitRepo : Bool) (s : St) : Bool × St :=
  (gitRepo, s.emit (.probe "git rev-parse --is-inside-work-tree"))

/-- Embedding of `has_origin_remote` (cli.py lines 336-339): probe
`git remote` and test membership of `origin` in the whitespace-split
captured stdout. -/
def has_origin_remote (remoteStdout : String) (s : St) : Bool × St :=
  (decide ("origin" ∈ pySplit remoteStdout), s.emit (.probe "git remote"))

/-- Embedding of the first-time-setup guard in `main` (cli.py lines 380-384).
Python's `and` short-circuits, so `has_origin_remote` only runs when
`is_git_repo` reported true. -/
def conflictPhase (gitRepo : Bool) (remoteStdout : String) (s : St) :
    MainRes ⊕ St :=
  let (g, s) := is_git_repo gitRepo s
  if g then
    let (o, s) := has_origin_remote remoteStdout s
    if o then
      .inl ⟨.exited 1,
        (s.emits [
          .printed "✗ This script should be used for first-time repository setup only.",
          .printed "   Remote 'origin' already exists - aborting."]).events⟩
    else .inr s
  else .inr s

/-- One `input()` call: issue the prompt, then either consume a line, or
raise `KeyboardInterrupt` (user interruption), or raise `EOFError` (stdin
exhausted); `main` has no handler for either exception. -/
def readInput (msg : String) (s : St) : MainRes ⊕ (String × St) :=
  let s := s.emit (.prompt msg)
  match s.inputs with
  | [] => .inl ⟨.uncaught "EOFError", s.events⟩
  | .interrupt :: _ => .inl ⟨.uncaught "KeyboardInterrupt", s.events⟩
  | .text t :: rest => .inr (t, { s with inputs := rest })

/-- Embedding of the repository-name loop in `main` (cli.py lines 389-394):
prompt, strip, accept on a pattern match, otherwise print the complaint and
repeat. Recursion is on the remaining stdin script. -/
def repoNameLoop (evs : List Event) (fs : FsB) :
    List InputEvent → MainRes ⊕ (String × St)
  | [] =>
      .inl ⟨.uncaught "EOFError",
            evs ++ [.prompt "Enter GitHub repository name: "]⟩
  | .interrupt :: _ =>
      .inl ⟨.uncaught "KeyboardInterrupt",
            evs ++ [.prompt "Enter GitHub repository name: "]⟩
  | .text t :: rest =>
      let evs1 := evs ++ [.prompt "Enter GitHub repository name: "]
      let name := pyStrip t
      if validRepoName name then .inr (name, ⟨evs1, fs, rest⟩)
      else
        repoNameLoop
          (evs1 ++ [.printed "Invalid name - only letters, numbers, - and _ allowed"])
          fs rest

/-- Embedding of `check_gh_installed` (cli.py lines 91-97): a non-fatal probe
plus a complaint when the tool is missing. -/
def check_gh_installed (ghInstalled : Bool) (s : St) : Bool × St :=
  let s := s.emit (.probe "gh --version")
  if ghInstalled then (true, s)
  else (false,
    s.emit (.printed "✗ GitHub CLI not installed. Install from https://cli.github.com"))

/-- Embedding of `github_auth` (cli.py lines 100-107): probe the auth
status; when not authenticated run the live interactive login. -/
def github_auth (authenticated : Bool) (s : St) : St :=
  let s := s.emit (.probe "gh auth status")
  if authenticated then s.emit (.printed "✓ GitHub authentication verified")
  else
    (s.emit (.printed "🔑 Authenticating with GitHub...")).emit
      (.mutStep "gh auth login --web --hostname github.com")

/-- Embedding of `setup_git_config` (cli.py lines 116-128): when the global
user name is unset, look up the GitHub login and set it; when the email is
unset, prompt for it (an `input()` call that can be interrupted) and set it.
The delegated `git config` writes are modelled as succeeding. -/
def setup_git_config (gitUserName gitUserEmail : String) (s : St) :
    MainRes ⊕ St :=
  let s := s.emit (.printed "⚙️ Checking Git configuration...")
  let s := s.emit (.probe "git config --global user.name")
  let s :=
    if pyStrip gitUserName = "" then
      (s.emit (.probe "gh api user -q .login")).emit
        (.mutStep "git config --global user.name <github-login>")
    else s
  let s := s.emit (.probe "git config --global user.email")
  if pyStrip gitUserEmail = "" then
    match readInput "Enter your GitHub email: " s with
    | .inl m => .inl m
    | .inr (_, s) => .inr (s.emit (.mutStep "git config --global user.email <email>"))
  else .inr s

/-- Embedding of the no-push guard in `main` (cli.py lines 407-414): when
both setup markers are already present, exit 0; otherwise announce no-push
mode. -/
def noPushPhase (s : St) : MainRes ⊕ St :=
  if s.fs.venv && s.fs.pyproject then
    .inl ⟨.exited 0,
      (s.emits [
        .printed "✗ This script should be used for first-time repository setup only.",
        .printed "   Detected existing `.venv` and `pyproject.toml`. No changes made."]).events⟩
  else
    .inr (s.emit (.printed "⚠️  --no-push mode: skipping all GitHub prompts and authentication"))

/-- Trace-level embedding of `initialize_uv` (cli.py lines 131-147) inside
`main`: probe the manager, install it when missing, run `uv init .` only when
the manifest is absent (the manager then creates the manifest and, depending
on its version, an ignore file — `uvInitGitignore`), then unconditionally
remove `.gitignore` when present. Delegated commands are modelled as
succeeding. -/
def initUvPhase (uvInstalled uvInitGitignore : Bool) (s : St) : St :=
  let s := s.emit (.probe "uv --version")
  let s := if uvInstalled then s
    else (s.emit (.printed "✗ uv is not installed. Installing via pip...")).emit
      (.mutStep "pip install uv")
  let s := s.emit (.printed "🔄 Setting up local uv git repository...")
  let s := if s.fs.pyproject then s
    else
      { (s.emit (.mutStep "uv init .")) with
        fs := { s.fs with pyproject := true, gitignore := uvInitGitignore } }
  if s.fs.gitignore then
    { (s.emit (.mutStep "os.remove .gitignore")) with
      fs := { s.fs with gitignore := false } }
  else s

/-- Trace-level embedding of `create_basic_files` (cli.py lines 150-171):
conditional downloads of the ignore file and license (modelled as
succeeding), then the unconditional README rewrite. -/
def basicFilesPhase (s : St) : St :=
  let s := s.emit (.printed "📂 Creating project structure...")
  let s := if s.fs.gitignore then s
    else { (s.emit (.mutStep "download .gitignore")) with
           fs := { s.fs with gitignore := true } }
  let s := if s.fs.license then s
    else { (s.emit (.mutStep "download LICENSE")) with
           fs := { s.fs with license := true } }
  s.emit (.mutStep "write README.md")

/-- Trace-level embedding of `setup_virtualenv` (cli.py lines 217-289):
raise the dedicated error when the manifest is missing (uncaught in `main`),
create the environment when absent, install and sync when a requirements
file exists, run `template.py` when present. Delegated commands are modelled
as succeeding. -/
def venvPhase (s : St) : MainRes ⊕ St :=
  if s.fs.pyproject = false then
    .inl ⟨.uncaught "MissingPyprojectTomlError", s.events⟩
  else
    let s := if s.fs.venv then s.emit (.printed "✓ Virtual environment exists")
      else { (s.emit (.mutStep "uv venv")) with fs := { s.fs with venv := true } }
    let s := if s.fs.requirements then
        (s.emit (.mutStep "uv add -r requirements.txt")).emit (.mutStep "uv sync")
      else s.emit (.printed "ℹ️ No requirements.txt found")
    let s := if s.fs.templatePy then s.emit (.mutStep "uv run template.py") else s
    .inr (s.emit (.printed "🔌 Virtual environment activation: source .venv/bin/activate"))

/-- Trace-level embedding of `setup_vscode` (cli.py lines 292-325): a single
unconditional settings-file write. -/
def vscodePhase (s : St) : St :=
  s.emit (.mutStep "write .vscode/settings.json")

/-- The always-run local setup block of `main` (cli.py lines 416-420). -/
def localSetup (uvInstalled uvInitGitignore : Bool) (s : St) : MainRes ⊕ St :=
  let s := initUvPhase uvInstalled uvInitGitignore s
  let s := basicFilesPhase s
  match venvPhase s with
  | .inl m => .inl m
  | .inr s => .inr (vscodePhase s)

/-- Trace-level embedding of `create_github_repo` with `push=True`
(cli.py lines 174-206): stage, attempt the commit (non-fatal), rename the
branch only when the commit succeeded, create and push the remote with the
requested name and visibility, then report the URL built from the probed
login. Delegated commands other than the tolerated commit are modelled as
succeeding. -/
def createRepoPhase (commitOk : Bool) (githubUsername name visibility : String)
    (s : St) : St :=
  let s := s.emit (.printed ("🔄 Creating " ++ visibility ++ " repository..."))
  let s := s.emit (.mutStep "git add .")
  let s := s.emit (.mutStep "git commit -m Initial-commit")
  let s := if commitOk then
      (s.emit (.mutStep "git branch -M main")).emit
        (.printed "✓ Initial commit created and branch renamed to main")
    else s.emit (.printed "ℹ️ No changes to commit - creating empty repository")
  let s := s.emit (.remoteCreate name visibility)
  let s := s.emit (.probe "gh api user -q .login")
  s.emit (.printed ("✓ Repository created and pushed: https://github.com/" ++
    githubUsername ++ "/" ++ name))

/-- The push branch of `main` after the repository name and visibility have
been collected (cli.py lines 401-406 and 416-429): tool check, auth, git
config, local setup, remote creation, final messages. -/
def pushTail (env : Env) (name visibility : String) (s : St) : MainRes :=
  match check_gh_installed env.ghInstalled s with
  | (false, s) => ⟨.exited 1, s.events⟩
  | (true, s) =>
    let s := github_auth env.authenticated s
    match setup_git_config env.gitUserName env.gitUserEmail s with
    | .inl m => m
    | .inr s =>
      match localSetup env.uvInstalled env.uvInitGitignore s with
      | .inl m => m
      | .inr s =>
        let s := createRepoPhase env.commitOk env.githubUsername
          name visibility s
        ⟨.completed,
          ((s.emit (.printed "✅ Setup Complete!")).emit
            (.printed "➤ Local path: .")).events⟩

/-- The part of `main` after the version and first-time-setup guards
(cli.py lines 386-429): either the interactive GitHub branch (name loop,
visibility prompt, then `pushTail`) or the no-push branch, each running the
local setup block. -/
def mainTail (env : Env) (s : St) : MainRes :=
  if env.noPush then
    match noPushPhase s with
    | .inl m => m
    | .inr s =>
      match localSetup env.uvInstalled env.uvInitGitignore s with
      | .inl m => m
      | .inr s =>
        ⟨.completed,
          ((s.emit (.printed "✅ Setup Complete! (no GitHub repo created)")).emit
            (.printed "➤ Local path: .")).events⟩
  else
    match repoNameLoop s.events s.fs s.inputs with
    | .inl m => m
    | .inr (name, s) =>
      match readInput "Visibility [public/private] (default: public): " s with
      | .inl m => m
      | .inr (vraw, s) => pushTail env name (chooseVisibility vraw) s

/-- Embedding of `main` from a given starting state: version check,
first-time-setup guard, then `mainTail`. -/
def mainFrom (env : Env) (s : St) : MainRes :=
  match checkVersionPhase env.version s with
  | .inl m => m
  | .inr s =>
    match conflictPhase env.gitRepo env.gitRemoteStdout s with
    | .inl m => m
    | .inr s => mainTail env s

/-- Embedding of `main` (cli.py lines 343-429): banner, version check,
first-time-setup guard, then either the interactive GitHub branch (name
loop, visibility prompt, tool check, auth, git config) or the no-push
branch, then the local setup block, then remote creation when pushing. -/
def mainExec (env : Env) : MainRes :=
  mainFrom env
    ⟨[.printed "🚀 Python Project Automator - Utkarsh Gaikwad 🚀",
      .printed "Platform detected: Linux"], env.fs0, env.inputs⟩

/-- Whether the trace contains an interactive prompt. -/
def hasPrompt (evs : List Event) : Bool :=
  evs.any (fun e => match e with | .prompt _ => true | _ => false)

/-- Whether the trace contains a mutating step. -/
def hasMut (evs : List Event) : Bool :=
  evs.any (fun e => match e with | .mutStep _ => true | _ => false)

/-- Whether the trace contains an environment probe. -/
def hasProbe (evs : List Event) : Bool :=
  evs.any (fun e => match e with | .probe _ => true | _ => false)

/-- Whether the trace contains the remote-creation step. -/
def hasRemoteCreate (evs : List Event) : Bool :=
  evs.any (fun e => match e with | .remoteCreate _ _ => true | _ => false)

/-- The repository names passed to the remote-creation step, in order. -/
def remoteNames (evs : List Event) : List String :=
  evs.filterMap (fun e => match e with | .remoteCreate n _ => some n | _ => none)

/-- A run environment with benign values, used to instantiate the workflow
theorems at concrete points. -/
def baseEnv : Env :=
  { version := (3, 12), noPush := false, gitRepo := false, gitRemoteStdout := "",
    ghInstalled := true, authenticated := true, gitUserName := "user",
    gitUserEmail := "mail@example.com", githubUsername := "octo",
    uvInstalled := true, uvInitGitignore := false, commitOk := true,
    fs0 := ⟨false, false, false, false, false, false⟩,
    inputs := [.text "myrepo", .text "public"] }

/-- C1: in captured mode (`live_output=false`), a nonzero exit under
`check=true` prints the captured stderr and terminates the process with exit
code 1, returning nothing; with exit code 0, or with `check=false`, the
`CommandResult` (exit code, captured stdout, captured stderr) is returned
regardless of the exit code. -/
theorem c1_run_command_captured (code : Int) (out err : String) :
    (code ≠ 0 →
      run_command (.completed code out err) true false =
        ⟨.exited 1, ["✗ Command failed: " ++ err]⟩) ∧
    run_command (.completed 0 out err) true false =
      ⟨.returned (some ⟨0, out, err⟩), []⟩ ∧
    run_command (.completed code out err) false false =
      ⟨.returned (some ⟨code, out, err⟩), []⟩ := by
  refine ⟨fun h => ?_, ?_, ?_⟩
  · simp [run_command, h]
  · simp [run_command]
  · simp [run_command]

/-- Witness for C1 at exit code 2 with stderr `boom`. -/
theorem c1_run_command_captured_witness :
    (2 : Int) ≠ 0 ∧
    run_command (.completed 2 "so" "boom") true false =
      ⟨.exited 1, ["✗ Command failed: boom"]⟩ :=
  ⟨by decide, (c1_run_command_captured 2 "so" "boom").1 (by decide)⟩

/-- Counterexample to C5: when the OS cannot start the shell, `run_command`
with `check=true` does not terminate the process itself; the
`FileNotFoundError` escapes the `try` block (which catches only
`CalledProcessError`) and propagates to the caller. -/
theorem c5_spawn_counterexample :
    (run_command .spawnFailure true false).outcome = .raised "FileNotFoundError" ∧
    (run_command .spawnFailure true false).outcome ≠ .exited 1 := by
  exact ⟨rfl, by decide⟩

/-- C5 as amended: under `check=true` in captured mode, a missing tool
surfaces as the shell's own nonzero exit (127) and is fatal exactly like any
other nonzero exit; only an OS-level failure to start the shell itself
escapes as a propagating exception instead of terminating cleanly. -/
theorem c5_amended_spawn_semantics (out err : String) :
    (run_command (.completed 127 out err) true false).outcome = .exited 1 ∧
    (run_command .spawnFailure true false).outcome = .raised "FileNotFoundError" := by
  constructor
  · simp [run_command]
  · rfl

/-- Counterexample to C3: the raw answer `PRIVATE` is not exactly `public`
nor exactly `private`, yet the chosen visibility is `private`, not the
claimed default `public` (the code lowercases the input first). -/
theorem c3_visibility_counterexample :
    chooseVisibility "PRIVATE" = "private" ∧
    "PRIVATE" ≠ "public" ∧ "PRIVATE" ≠ "private" := by
  refine ⟨by decide, by decide, by decide⟩

/-- C3 as amended: the answer is first stripped and lowercased; the chosen
visibility is that normalized form when it is exactly `public` or exactly
`private`, and `public` for every other input. -/
theorem c3_amended_visibility (raw : String) :
    (pyLower (pyStrip raw) = "public" → chooseVisibility raw = "public") ∧
    (pyLower (pyStrip raw) = "private" → chooseVisibility raw = "private") ∧
    (pyLower (pyStrip raw) ≠ "public" → pyLower (pyStrip raw) ≠ "private" →
      chooseVisibility raw = "public") := by
  refine ⟨fun h => ?_, fun h => ?_, fun h1 h2 => ?_⟩
  · simp [chooseVisibility, h]
  · simp [chooseVisibility, h]
  · simp [chooseVisibility, h1, h2]

/-- Witness for C3 as amended, at the interesting input `PRIVATE`. -/
theorem c3_amended_visibility_witness :
    pyLower (pyStrip "PRIVATE") = "private" ∧
    chooseVisibility "PRIVATE" = "private" :=
  ⟨by decide, (c3_amended_visibility "PRIVATE").2.1 (by decide)⟩

/-- Counterexample to C2: a transport error raised while reading the body is
a failed download that exits with code 1, yet it leaves a target file behind
— the target was created (truncated to empty) by `open(filename, "wb")`
before the body read finished. -/
theorem c2_download_counterexample :
    (download_files (.response 200 .readError) "LICENSE" []).1 = .exit 1 ∧
    fsLookup (download_files (.response 200 .readError) "LICENSE" []).2.1
      "LICENSE" = some "" := by
  exact ⟨rfl, rfl⟩

/-- C2 as amended: a failed download always prints a failure message and
terminates with exit code 1; when the failure is the connection attempt or a
non-200 status the filesystem is untouched, but a transport error during the
body read leaves the just-opened, truncated (empty) target file behind; the
content write itself happens only after a fully successful read. -/
theorem c2_amended_download (filename : String) (fs : Fs) :
    download_files .connectFailure filename fs =
      (.exit 1, fs, ["✗ Failed to download " ++ filename]) ∧
    (∀ st : Int, ∀ body : ReadOutcome, st ≠ 200 →
      download_files (.response st body) filename fs =
        (.exit 1, fs, ["✗ Failed to download " ++ filename])) ∧
    download_files (.response 200 .readError) filename fs =
      (.exit 1, fsSet fs filename "", ["✗ Failed to download " ++ filename]) ∧
    (∀ data : String, download_files (.response 200 (.ok data)) filename fs =
      (.ok, fsSet (fsSet fs filename "") filename data,
        ["✓ Downloaded " ++ filename])) := by
  refine ⟨rfl, fun st body h => ?_, ?_, fun data => ?_⟩
  · simp [download_files, h]
  · simp [download_files]
  · simp [download_files]

/-- Witness for C2 as amended, at a 404 response. -/
theorem c2_amended_download_witness :
    (404 : Int) ≠ 200 ∧
    download_files (.response 404 (.ok "body")) "LICENSE" [] =
      (.exit 1, [], ["✗ Failed to download LICENSE"]) :=
  ⟨by decide, (c2_amended_download "LICENSE" []).2.1 404 (.ok "body") (by decide)⟩

theorem fsLookup_fsRemove_self (fs : Fs) (p : String) :
    fsLookup (fsRemove fs p) p = none := by
  induction fs with
  | nil => rfl
  | cons e rest ih =>
    by_cases h : e.1 = p
    · simpa [fsRemove, List.filter_cons, h] using ih
    · simpa [fsRemove, List.filter_cons, h, fsLookup] using ih

theorem fsHas_fsRemove_self (fs : Fs) (p : String) :
    fsHas (fsRemove fs p) p = false := by
  simp [fsHas, fsLookup_fsRemove_self]

theorem fsLookup_fsSet_self (fs : Fs) (p c : String) :
    fsLookup (fsSet fs p c) p = some c := by
  simp [fsSet, fsLookup]



theorem fsLookup_fsRemove_ne (fs : Fs) (q p : String) (h : q ≠ p) :
    fsLookup (fsRemove fs q) p = fsLookup fs p := by
  induction fs with
  | nil => rfl
  | cons e rest ih =>
    by_cases he : e.1 = q
    · simpa [fsRemove, List.filter_cons, he, fsLookup, h, Ne.symm h] using ih
    · by_cases hp : e.1 = p
      · simp [fsRemove, List.filter_cons, he, fsLookup, hp, Ne.symm h]
      · simpa [fsRemove, List.filter_cons, he, fsLookup, hp] using ih

theorem fsLookup_fsSet_ne (fs : Fs) (q p c : String) (h : q ≠ p) :
    fsLookup (fsSet fs q c) p = fsLookup fs p := by
  simp [fsSet, fsLookup, h, fsLookup_fsRemove_ne fs q p h]

theorem fsLookup_ensureDownload_ne (net : Fetch) (q p : String) (fs : Fs)
    (h : q ≠ p) :
    fsLookup (ensureDownload net q fs).2.1 p = fsLookup fs p := by
  unfold ensureDownload download_files
  split
  · rfl
  · cases net with
    | connectFailure => rfl
    | response status body =>
      by_cases hs : status ≠ 200
      · simp [hs]
      · cases body with
        | readError => simp [hs, fsLookup_fsSet_ne _ _ _ _ h]
        | ok data => simp [hs, fsLookup_fsSet_ne _ _ _ _ h]

theorem init_uv_no_gitignore (u : Bool) (uvInit : Fs → Fs) (fs : Fs) :
    fsHas (init_uv u uvInit fs).1 ".gitignore" = false := by
  have key : ∀ q : Fs × List String,
      fsHas (if fsHas q.1 ".gitignore" = true then
        (fsRemove q.1 ".gitignore", q.2) else q).1 ".gitignore" = false := by
    intro q
    by_cases h : fsHas q.1 ".gitignore" = true
    · simp [h, fsHas_fsRemove_self]
    · simp only [h, if_false]
      simpa using h
  simp only [init_uv]
  exact key _

theorem create_basic_files_gitignore (fs : Fs) (g : String) (netL : Fetch)
    (dirname : String) (habs : fsHas fs ".gitignore" = false) :
    fsLookup (create_basic_files (.response 200 (.ok g)) netL dirname fs).2.1
      ".gitignore" = some g := by
  have hE1 : ensureDownload (.response 200 (.ok g)) ".gitignore" fs =
      (.ok, fsSet (fsSet fs ".gitignore" "") ".gitignore" g,
        ["✓ Downloaded .gitignore"]) := by
    simp [ensureDownload, habs, download_files]
  rcases h2 : ensureDownload netL "LICENSE"
      (fsSet (fsSet fs ".gitignore" "") ".gitignore" g) with ⟨out2, fs2, p2⟩
  have hpre : fsLookup fs2 ".gitignore" = some g := by
    have hkeep := fsLookup_ensureDownload_ne netL "LICENSE" ".gitignore"
      (fsSet (fsSet fs ".gitignore" "") ".gitignore" g) (by decide)
    rw [h2] at hkeep
    simpa [fsLookup_fsSet_self] using hkeep
  cases out2 with
  | exit c =>
    simp only [create_basic_files, hE1, h2]
    exact hpre
  | ok =>
    simp only [create_basic_files, hE1, h2]
    rw [fsLookup_fsSet_ne _ "README.md" ".gitignore" _ (by decide)]
    exact hpre

/-- C10: every run of `initialize_uv` ends with no `.gitignore` present, for
every initial filesystem and every effect of `uv init .` — so the file is
removed whether it was user-authored or generated by the package manager;
after any such run, `create_basic_files` installs the downloaded standard
ignore file, whatever the license provisioning does; and in particular, when
the manifest already exists (so `uv init` is skipped entirely), the run is
exactly the deletion of the pre-existing, user-authored `.gitignore`. -/
theorem c10_gitignore_removed_and_replaced :
    (∀ (u : Bool) (uvInit : Fs → Fs) (fs : Fs),
      fsHas (init_uv u uvInit fs).1 ".gitignore" = false) ∧
    (∀ (u : Bool) (uvInit : Fs → Fs) (fs : Fs) (g : String) (netL : Fetch)
      (dirname : String),
      fsLookup (create_basic_files (.response 200 (.ok g)) netL dirname
        (init_uv u uvInit fs).1).2.1 ".gitignore" = some g) ∧
    (∀ (u : Bool) (uvInit : Fs → Fs) (fs : Fs) (userContent : String),
      fsLookup fs ".gitignore" = some userContent →
      fsHas fs "pyproject.toml" = true →
      (init_uv u uvInit fs).1 = fsRemove fs ".gitignore") := by
  refine ⟨init_uv_no_gitignore, ?_, ?_⟩
  · intro u uvInit fs g netL dirname
    exact create_basic_files_gitignore _ g netL dirname
      (init_uv_no_gitignore u uvInit fs)
  · intro u uvInit fs userContent hg hp
    have hgi : fsHas fs ".gitignore" = true := by simp [fsHas, hg]
    simp [init_uv, hp, hgi]

/-- Witness for C10: a user-authored ignore file next to an existing
manifest is removed (`uv init` skipped), and the standard content is
installed in its place. -/
theorem c10_gitignore_removed_and_replaced_witness :
    fsLookup [(".gitignore", "user"), ("pyproject.toml", "m")] ".gitignore" =
      some "user" ∧
    fsHas [(".gitignore", "user"), ("pyproject.toml", "m")] "pyproject.toml" =
      true ∧
    (init_uv true id [(".gitignore", "user"), ("pyproject.toml", "m")]).1 =
      fsRemove [(".gitignore", "user"), ("pyproject.toml", "m")] ".gitignore" ∧
    fsLookup (create_basic_files (.response 200 (.ok "std"))
      (.response 200 (.ok "lic")) "proj"
      (init_uv true id [(".gitignore", "user"), ("pyproject.toml", "m")]).1).2.1
      ".gitignore" = some "std" :=
  ⟨by decide, by decide,
    c10_gitignore_removed_and_replaced.2.2 true id
      [(".gitignore", "user"), ("pyproject.toml", "m")] "user"
      (by decide) (by decide),
    c10_gitignore_removed_and_replaced.2.1 true id
      [(".gitignore", "user"), ("pyproject.toml", "m")] "std"
      (.response 200 (.ok "lic")) "proj"⟩

/-- C7: whenever the working directory is already a git repository and
already has a remote named `origin`, the workflow exits with code 1 before
any input prompt is issued and before any mutating step runs, and it never
reaches the remote-creation step. (This holds for every interpreter version:
an old interpreter only makes the run exit 1 even earlier.) -/
theorem c7_conflict_early_exit (env : Env)
    (hgit : env.gitRepo = true)
    (ho : "origin" ∈ pySplit env.gitRemoteStdout) :
    (mainExec env).outcome = .exited 1 ∧
    hasPrompt (mainExec env).events = false ∧
    hasMut (mainExec env).events = false ∧
    hasRemoteCreate (mainExec env).events = false := by
  by_cases hv : versionLt38 env.version
  · simp [mainExec, mainFrom, mainTail, pushTail, checkVersionPhase, hv, St.emit, hasPrompt, hasMut,
      hasRemoteCreate]
  · simp [mainExec, mainFrom, mainTail, pushTail, checkVersionPhase, hv, conflictPhase, is_git_repo,
      has_origin_remote, hgit, ho, St.emit, St.emits, hasPrompt, hasMut,
      hasRemoteCreate]

/-- A run environment that is already a git repository with an `origin`
remote. -/
def envOrigin : Env :=
  { baseEnv with gitRepo := true, gitRemoteStdout := "origin\n" }

/-- Witness for C7 in a repository whose `git remote` output is `origin`. -/
theorem c7_conflict_early_exit_witness :
    envOrigin.gitRepo = true ∧
    "origin" ∈ pySplit envOrigin.gitRemoteStdout ∧
    (mainExec envOrigin).outcome = .exited 1 :=
  ⟨rfl, by decide, (c7_conflict_early_exit envOrigin rfl (by decide)).1⟩

/-- A no-push run in a directory that has both setup markers but is also
already a git repository with an `origin` remote. -/
def envBootstrapped : Env :=
  { baseEnv with
    noPush := true
    gitRepo := true
    gitRemoteStdout := "origin"
    fs0 := ⟨true, false, false, true, false, false⟩
    inputs := [] }

/-- Counterexample to C8: in no-push mode with `.venv` and `pyproject.toml`
both present, the workflow does not exit with code 0 when the directory is
also a git repository with an `origin` remote — the first-time-setup guard
runs first and exits with code 1. -/
theorem c8_nopush_counterexample :
    envBootstrapped.noPush = true ∧
    envBootstrapped.fs0.venv = true ∧
    envBootstrapped.fs0.pyproject = true ∧
    (mainExec envBootstrapped).outcome = .exited 1 ∧
    (mainExec envBootstrapped).outcome ≠ .exited 0 := by
  refine ⟨rfl, rfl, rfl, by decide, by decide⟩

/-- C8 as amended: in no-push mode with both markers present, provided the
interpreter version check passes and the origin-remote guard does not fire
first, the workflow exits with code 0 having issued no prompt and performed
no mutating step. -/
theorem c8_amended_nopush_shortcircuit (env : Env)
    (hnp : env.noPush = true)
    (hv : env.fs0.venv = true)
    (hp : env.fs0.pyproject = true)
    (hver : versionLt38 env.version = false)
    (hng : env.gitRepo = true → "origin" ∉ pySplit env.gitRemoteStdout) :
    (mainExec env).outcome = .exited 0 ∧
    hasPrompt (mainExec env).events = false ∧
    hasMut (mainExec env).events = false := by
  by_cases hg : env.gitRepo = true
  · have ho := hng hg
    simp [mainExec, mainFrom, mainTail, pushTail, checkVersionPhase, hver, conflictPhase, is_git_repo,
      has_origin_remote, hg, ho, hnp, noPushPhase, hv, hp, St.emit, St.emits,
      hasPrompt, hasMut]
  · simp [mainExec, mainFrom, mainTail, pushTail, checkVersionPhase, hver, conflictPhase, is_git_repo,
      has_origin_remote, hg, hnp, noPushPhase, hv, hp, St.emit, St.emits,
      hasPrompt, hasMut]

/-- A no-push run with both setup markers present and no git repository. -/
def envNoPushDone : Env :=
  { baseEnv with
    noPush := true
    fs0 := ⟨true, false, false, true, false, false⟩
    inputs := [] }

/-- Witness for C8 as amended. -/
theorem c8_amended_nopush_shortcircuit_witness :
    envNoPushDone.noPush = true ∧
    envNoPushDone.fs0.venv = true ∧
    envNoPushDone.fs0.pyproject = true ∧
    versionLt38 envNoPushDone.version = false ∧
    (mainExec envNoPushDone).outcome = .exited 0 :=
  ⟨rfl, rfl, rfl, by decide,
    (c8_amended_nopush_shortcircuit envNoPushDone rfl rfl rfl (by decide)
      (by decide)).1⟩

/-- C9: with an interpreter older than 3.8, `main` prints an error and exits
with code 1 at the version-check step, before any environment probe, prompt
or mutating step; with 3.8 or newer the run is identical to the run of the
same environment at version exactly 3.8 — the check contributes nothing. -/
theorem c9_version_check (env : Env) :
    (versionLt38 env.version = true →
      (mainExec env).outcome = .exited 1 ∧
      hasProbe (mainExec env).events = false ∧
      hasPrompt (mainExec env).events = false ∧
      hasMut (mainExec env).events = false) ∧
    (versionLt38 env.version = false →
      mainExec env = mainExec { env with version := (3, 8) }) := by
  constructor
  · intro hv
    simp [mainExec, mainFrom, mainTail, pushTail, checkVersionPhase, hv, St.emit, hasProbe, hasPrompt, hasMut]
  · intro hv
    have h38 : versionLt38 (3, 8) = false := by decide
    simp only [mainExec, mainFrom, checkVersionPhase, hv, h38, Bool.false_eq_true,
      if_false]
    rfl

/-- A run environment on interpreter 3.7. -/
def envOldPython : Env := { baseEnv with version := (3, 7) }

/-- Witness for C9 on interpreter 3.7. -/
theorem c9_version_check_witness :
    versionLt38 envOldPython.version = true ∧
    (mainExec envOldPython).outcome = .exited 1 :=
  ⟨by decide, ((c9_version_check envOldPython).1 (by decide)).1⟩

/-- A run whose first interactive prompt is answered by a user
interruption. -/
def envInterrupted : Env := { baseEnv with inputs := [.interrupt] }

/-- Counterexample to C4: an interactive-input interruption during the first
prompt is not caught anywhere in `main` — the run ends with the
`KeyboardInterrupt` escaping the workflow (the interpreter then prints a
stack trace), not with a clean exit code. -/
theorem c4_interrupt_counterexample :
    (mainExec envInterrupted).outcome = .uncaught "KeyboardInterrupt" ∧
    (mainExec envInterrupted).outcome ≠ .exited 1 := by
  refine ⟨by decide, by decide⟩

theorem string_toList_ne_nil (s : String) : s.toList ≠ [] ↔ s ≠ "" := by
  cases s with
  | mk data =>
    cases data with
    | nil => simp [String.toList]
    | cons c cs =>
      simp only [String.toList]
      constructor
      · intro _ h
        exact absurd (congrArg String.data h) (by simp)
      · intro _ h
        exact absurd h (by simp)

theorem validRepoName_iff (s : String) :
    validRepoName s = true ↔ matchesNamePattern s := by
  unfold validRepoName matchesNamePattern
  rw [Bool.and_eq_true, bne_iff_ne, List.all_eq_true]
  rw [string_toList_ne_nil]

theorem repoNameLoop_valid (inputs : List InputEvent) (evs : List Event)
    (fs : FsB) (name : String) (s' : St)
    (h : repoNameLoop evs fs inputs = .inr (name, s')) :
    validRepoName name = true := by
  induction inputs generalizing evs with
  | nil => simp [repoNameLoop] at h
  | cons i rest ih =>
    cases i with
    | interrupt => simp [repoNameLoop] at h
    | text t =>
      rw [repoNameLoop] at h
      by_cases hv : validRepoName (pyStrip t)
      · simp [hv] at h
        rw [← h.1]
        exact hv
      · simp [hv] at h
        exact ih _ h

def haltEvents : MainRes ⊕ St → List Event
  | .inl m => m.events
  | .inr s => s.events

def haltEvents2 : MainRes ⊕ (String × St) → List Event
  | .inl m => m.events
  | .inr (_, s) => s.events

theorem remoteNames_append (a b : List Event) :
    remoteNames (a ++ b) = remoteNames a ++ remoteNames b := by
  simp [remoteNames, List.filterMap_append]

theorem remoteNames_checkVersionPhase (v : Nat × Nat) (s : St) :
    remoteNames (haltEvents (checkVersionPhase v s)) = remoteNames s.events := by
  unfold checkVersionPhase
  split <;> simp [haltEvents, St.emit, remoteNames_append, remoteNames]

theorem remoteNames_conflictPhase (g : Bool) (r : String) (s : St) :
    remoteNames (haltEvents (conflictPhase g r s)) = remoteNames s.events := by
  unfold conflictPhase is_git_repo has_origin_remote
  cases g <;> by_cases ho : "origin" ∈ pySplit r <;>
    simp [ho, haltEvents, St.emit, St.emits, remoteNames_append, remoteNames]

theorem remoteNames_noPushPhase (s : St) :
    remoteNames (haltEvents (noPushPhase s)) = remoteNames s.events := by
  unfold noPushPhase
  split <;> simp [haltEvents, St.emit, St.emits, remoteNames_append, remoteNames]

theorem remoteNames_readInput (msg : String) (s : St) :
    remoteNames (haltEvents2 (readInput msg s)) = remoteNames s.events := by
  unfold readInput
  rcases hins : s.inputs with _ | ⟨i, rest⟩
  · simp [hins, haltEvents2, St.emit, remoteNames_append, remoteNames]
  · cases i <;>
      simp [hins, haltEvents2, St.emit, remoteNames_append, remoteNames]

theorem remoteNames_repoNameLoop (inputs : List InputEvent) (evs : List Event)
    (fs : FsB) :
    remoteNames (haltEvents2 (repoNameLoop evs fs inputs)) = remoteNames evs := by
  induction inputs generalizing evs with
  | nil => simp [repoNameLoop, haltEvents2, remoteNames_append, remoteNames]
  | cons i rest ih =>
    cases i with
    | interrupt =>
      simp [repoNameLoop, haltEvents2, remoteNames_append, remoteNames]
    | text t =>
      rw [repoNameLoop]
      by_cases hv : validRepoName (pyStrip t)
      · simp [hv, haltEvents2, remoteNames_append, remoteNames]
      · simp only [hv, Bool.false_eq_true, if_false]
        rw [ih]
        simp [remoteNames_append, remoteNames]

theorem remoteNames_check_gh (b : Bool) (s : St) :
    remoteNames (check_gh_installed b s).2.events = remoteNames s.events := by
  unfold check_gh_installed
  cases b <;> simp [St.emit, remoteNames_append, remoteNames]

theorem remoteNames_github_auth (b : Bool) (s : St) :
    remoteNames (github_auth b s).events = remoteNames s.events := by
  unfold github_auth
  cases b <;> simp [St.emit, remoteNames_append, remoteNames]

theorem remoteNames_setup_git_config (a b : String) (s : St) :
    remoteNames (haltEvents (setup_git_config a b s)) = remoteNames s.events := by
  have hcases : s.inputs = [] ∨ (∃ t rest, s.inputs = .text t :: rest) ∨
      (∃ rest, s.inputs = .interrupt :: rest) := by
    rcases hi : s.inputs with _ | ⟨i, rest⟩
    · exact Or.inl rfl
    · cases i with
      | text t => exact Or.inr (Or.inl ⟨t, rest, rfl⟩)
      | interrupt => exact Or.inr (Or.inr ⟨rest, rfl⟩)
  unfold setup_git_config readInput
  by_cases h1 : pyStrip a = "" <;> by_cases h2 : pyStrip b = "" <;>
    rcases hcases with hins | ⟨t, rest, hins⟩ | ⟨rest, hins⟩ <;>
    simp [h1, h2, hins, haltEvents, St.emit, remoteNames_append, remoteNames]

theorem remoteNames_initUvPhase (u g : Bool) (s : St) :
    remoteNames (initUvPhase u g s).events = remoteNames s.events := by
  unfold initUvPhase
  by_cases h1 : u <;> by_cases h2 : s.fs.pyproject <;>
    by_cases h3 : s.fs.gitignore <;> by_cases h4 : g <;>
    simp [h1, h2, h3, h4, St.emit, remoteNames_append, remoteNames]

theorem remoteNames_basicFilesPhase (s : St) :
    remoteNames (basicFilesPhase s).events = remoteNames s.events := by
  unfold basicFilesPhase
  by_cases h1 : s.fs.gitignore <;> by_cases h2 : s.fs.license <;>
    simp [h1, h2, St.emit, remoteNames_append, remoteNames]

theorem remoteNames_venvPhase (s : St) :
    remoteNames (haltEvents (venvPhase s)) = remoteNames s.events := by
  unfold venvPhase
  by_cases h1 : s.fs.pyproject <;> by_cases h2 : s.fs.venv <;>
    by_cases h3 : s.fs.requirements <;> by_cases h4 : s.fs.templatePy <;>
    simp [h1, h2, h3, h4, haltEvents, St.emit, remoteNames_append, remoteNames]

theorem remoteNames_vscodePhase (s : St) :
    remoteNames (vscodePhase s).events = remoteNames s.events := by
  simp [vscodePhase, St.emit, remoteNames_append, remoteNames]

theorem remoteNames_localSetup (u g : Bool) (s : St) :
    remoteNames (haltEvents (localSetup u g s)) = remoteNames s.events := by
  unfold localSetup
  rcases hv : venvPhase (basicFilesPhase (initUvPhase u g s)) with m | s1
  · have h2 := remoteNames_venvPhase (basicFilesPhase (initUvPhase u g s))
    rw [hv] at h2
    simp only [haltEvents] at h2
    simp only [hv, haltEvents]
    rw [h2, remoteNames_basicFilesPhase, remoteNames_initUvPhase]
  · have h2 := remoteNames_venvPhase (basicFilesPhase (initUvPhase u g s))
    rw [hv] at h2
    simp only [haltEvents] at h2
    simp only [hv, haltEvents]
    rw [remoteNames_vscodePhase, h2, remoteNames_basicFilesPhase,
      remoteNames_initUvPhase]

theorem remoteNames_createRepoPhase (ok : Bool) (user name vis : String)
    (s : St) :
    remoteNames (createRepoPhase ok user name vis s).events =
      remoteNames s.events ++ [name] := by
  unfold createRepoPhase
  cases ok <;> simp [St.emit, remoteNames_append, remoteNames]

theorem pushTail_remoteNames (env : Env) (name vis : String) (s : St)
    (hname : validRepoName name = true)
    (hs : ∀ x ∈ remoteNames s.events, validRepoName x = true) :
    ∀ x ∈ remoteNames (pushTail env name vis s).events,
      validRepoName x = true := by
  unfold pushTail
  rcases hgh : check_gh_installed env.ghInstalled s with ⟨b, s1⟩
  have hgh2 := remoteNames_check_gh env.ghInstalled s
  rw [hgh] at hgh2
  simp only at hgh2
  cases b
  · simp only [hgh]
    intro x hx
    exact hs x (hgh2 ▸ hx)
  · simp only [hgh]
    have hga := remoteNames_github_auth env.authenticated s1
    rcases hcfg : setup_git_config env.gitUserName env.gitUserEmail
        (github_auth env.authenticated s1) with m | s3
    · have hc2 := remoteNames_setup_git_config env.gitUserName env.gitUserEmail
        (github_auth env.authenticated s1)
      rw [hcfg] at hc2
      simp only [haltEvents] at hc2
      simp only [hcfg]
      intro x hx
      exact hs x (hgh2 ▸ hga ▸ hc2 ▸ hx)
    · have hc2 := remoteNames_setup_git_config env.gitUserName env.gitUserEmail
        (github_auth env.authenticated s1)
      rw [hcfg] at hc2
      simp only [haltEvents] at hc2
      simp only [hcfg]
      rcases hls : localSetup env.uvInstalled env.uvInitGitignore s3 with m | s4
      · have hl2 := remoteNames_localSetup env.uvInstalled env.uvInitGitignore s3
        rw [hls] at hl2
        simp only [haltEvents] at hl2
        simp only [hls]
        intro x hx
        exact hs x (hgh2 ▸ hga ▸ hc2 ▸ hl2 ▸ hx)
      · have hl2 := remoteNames_localSetup env.uvInstalled env.uvInitGitignore s3
        rw [hls] at hl2
        simp only [haltEvents] at hl2
        simp only [hls]
        intro x hx
        simp only [St.emit, remoteNames_append,
          remoteNames_createRepoPhase] at hx
        rw [hl2, hc2, hga, hgh2] at hx
        simp [remoteNames, List.mem_append] at hx
        rcases hx with hx | hx
        · exact hs x (by simpa [remoteNames] using hx)
        · exact hx ▸ hname

theorem mainTail_remoteNames (env : Env) (s : St)
    (hs : ∀ x ∈ remoteNames s.events, validRepoName x = true) :
    ∀ x ∈ remoteNames (mainTail env s).events, validRepoName x = true := by
  unfold mainTail
  cases hnp : env.noPush
  · simp only [Bool.false_eq_true, if_false]
    rcases hloop : repoNameLoop s.events s.fs s.inputs with m | ⟨name, s1⟩
    · have hl2 := remoteNames_repoNameLoop s.inputs s.events s.fs
      rw [hloop] at hl2
      simp only [haltEvents2] at hl2
      simp only [hloop]
      intro x hx
      exact hs x (hl2 ▸ hx)
    · have hname := repoNameLoop_valid s.inputs s.events s.fs name s1 hloop
      have hl2 := remoteNames_repoNameLoop s.inputs s.events s.fs
      rw [hloop] at hl2
      simp only [haltEvents2] at hl2
      simp only [hloop]
      rcases hri : readInput "Visibility [public/private] (default: public): "
          s1 with m | ⟨vraw, s2⟩
      · have hr2 := remoteNames_readInput
          "Visibility [public/private] (default: public): " s1
        rw [hri] at hr2
        simp only [haltEvents2] at hr2
        simp only [hri]
        intro x hx
        exact hs x (hl2 ▸ hr2 ▸ hx)
      · have hr2 := remoteNames_readInput
          "Visibility [public/private] (default: public): " s1
        rw [hri] at hr2
        simp only [haltEvents2] at hr2
        simp only [hri]
        exact pushTail_remoteNames env name (chooseVisibility vraw) s2 hname
          (fun x hx => hs x (hl2 ▸ hr2 ▸ hx))
  · simp only [if_true]
    rcases hph : noPushPhase s with m | s1
    · have hp2 := remoteNames_noPushPhase s
      rw [hph] at hp2
      simp only [haltEvents] at hp2
      simp only [hph]
      intro x hx
      exact hs x (hp2 ▸ hx)
    · have hp2 := remoteNames_noPushPhase s
      rw [hph] at hp2
      simp only [haltEvents] at hp2
      simp only [hph]
      rcases hls : localSetup env.uvInstalled env.uvInitGitignore s1 with m | s2
      · have hl2 := remoteNames_localSetup env.uvInstalled env.uvInitGitignore s1
        rw [hls] at hl2
        simp only [haltEvents] at hl2
        simp only [hls]
        intro x hx
        exact hs x (hp2 ▸ hl2 ▸ hx)
      · have hl2 := remoteNames_localSetup env.uvInstalled env.uvInitGitignore s1
        rw [hls] at hl2
        simp only [haltEvents] at hl2
        simp only [hls]
        intro x hx
        simp only [St.emit, remoteNames_append] at hx
        rw [hl2, hp2] at hx
        simp [remoteNames, List.mem_append] at hx
        exact hs x (by simpa [remoteNames] using hx)

theorem mainExec_remoteNames_valid (env : Env) :
    ∀ x ∈ remoteNames (mainExec env).events, validRepoName x = true := by
  unfold mainExec mainFrom
  rcases hcv : checkVersionPhase env.version
      ⟨[.printed "🚀 Python Project Automator - Utkarsh Gaikwad 🚀",
        .printed "Platform detected: Linux"], env.fs0, env.inputs⟩ with m | s1
  · have hv2 := remoteNames_checkVersionPhase env.version
      ⟨[.printed "🚀 Python Project Automator - Utkarsh Gaikwad 🚀",
        .printed "Platform detected: Linux"], env.fs0, env.inputs⟩
    rw [hcv] at hv2
    simp only [haltEvents] at hv2
    simp only [hcv]
    intro x hx
    rw [hv2] at hx
    simp [remoteNames] at hx
  · have hv2 := remoteNames_checkVersionPhase env.version
      ⟨[.printed "🚀 Python Project Automator - Utkarsh Gaikwad 🚀",
        .printed "Platform detected: Linux"], env.fs0, env.inputs⟩
    rw [hcv] at hv2
    simp only [haltEvents] at hv2
    simp only [hcv]
    rcases hcf : conflictPhase env.gitRepo env.gitRemoteStdout s1 with m | s2
    · have hc2 := remoteNames_conflictPhase env.gitRepo env.gitRemoteStdout s1
      rw [hcf] at hc2
      simp only [haltEvents] at hc2
      simp only [hcf]
      intro x hx
      rw [hc2, hv2] at hx
      simp [remoteNames] at hx
    · have hc2 := remoteNames_conflictPhase env.gitRepo env.gitRemoteStdout s1
      rw [hcf] at hc2
      simp only [haltEvents] at hc2
      simp only [hcf]
      refine mainTail_remoteNames env s2 ?_
      intro x hx
      rw [hc2, hv2] at hx
      simp [remoteNames] at hx

/-- C6: the repository-name validator accepts exactly the nonempty strings
over the class `[A-Za-z0-9_-]` (the anchored pattern), as checked on the
given examples, and every name an executed workflow ever hands to the
remote-creation step has passed it — so the name is nonempty and matches the
pattern before any remote-creation step runs. -/
theorem c6_repo_name_validation :
    (∀ s : String, validRepoName s = true ↔ matchesNamePattern s) ∧
    (validRepoName "repo-name" = true ∧ validRepoName "repo_name" = true ∧
     validRepoName "123repo" = true ∧ validRepoName "repo name" = false ∧
     validRepoName "repo.name" = false ∧ validRepoName "repo/name" = false ∧
     validRepoName "repo!" = false ∧ validRepoName "" = false) ∧
    (∀ (env : Env) (n v : String),
      Event.remoteCreate n v ∈ (mainExec env).events →
        validRepoName n = true) := by
  refine ⟨validRepoName_iff,
    ⟨by decide, by decide, by decide, by decide, by decide, by decide,
     by decide, by decide⟩, ?_⟩
  intro env n v hmem
  have hn : n ∈ remoteNames (mainExec env).events := by
    unfold remoteNames
    rw [List.mem_filterMap]
    exact ⟨.remoteCreate n v, hmem, rfl⟩
  exact mainExec_remoteNames_valid env n hn

/-- Witness for C6: the default happy-path run creates the remote with the
validated name `myrepo`. -/
theorem c6_repo_name_validation_witness :
    Event.remoteCreate "myrepo" "public" ∈ (mainExec baseEnv).events ∧
    validRepoName "myrepo" = true :=
  ⟨by decide,
    c6_repo_name_validation.2.2 baseEnv "myrepo" "public" (by decide)⟩

/-- An input-script segment consisting only of typed lines (no
interruption). -/
def textOnly (l : List InputEvent) : Prop :=
  ∀ i ∈ l, ∃ t, i = InputEvent.text t

/-- Number of interactive prompts issued in a trace. Each consumed `input()`
answer corresponds to exactly one prompt event, so a run that issues at most
`k` prompts has consumed at most `k` scripted answers. -/
def promptCount (evs : List Event) : Nat :=
  (evs.filter (fun e => match e with | .prompt _ => true | _ => false)).length

theorem promptCount_append (a b : List Event) :
    promptCount (a ++ b) = promptCount a + promptCount b := by
  simp [promptCount, List.filter_append]

theorem pcFacts_check_gh (b : Bool) (s : St) :
    (check_gh_installed b s).2.inputs = s.inputs ∧
    promptCount (check_gh_installed b s).2.events = promptCount s.events := by
  unfold check_gh_installed
  cases b <;> simp [St.emit, promptCount_append, promptCount]

theorem pcFacts_github_auth (b : Bool) (s : St) :
    (github_auth b s).inputs = s.inputs ∧
    promptCount (github_auth b s).events = promptCount s.events := by
  unfold github_auth
  cases b <;> simp [St.emit, promptCount_append, promptCount]

theorem pcFacts_initUvPhase (u g : Bool) (s : St) :
    (initUvPhase u g s).inputs = s.inputs ∧
    promptCount (initUvPhase u g s).events = promptCount s.events := by
  unfold initUvPhase
  by_cases h1 : u <;> by_cases h2 : s.fs.pyproject <;>
    by_cases h3 : s.fs.gitignore <;> by_cases h4 : g <;>
    simp [h1, h2, h3, h4, St.emit, promptCount_append, promptCount]

theorem pcFacts_basicFilesPhase (s : St) :
    (basicFilesPhase s).inputs = s.inputs ∧
    promptCount (basicFilesPhase s).events = promptCount s.events := by
  unfold basicFilesPhase
  by_cases h1 : s.fs.gitignore <;> by_cases h2 : s.fs.license <;>
    simp [h1, h2, St.emit, promptCount_append, promptCount]

theorem pcFacts_vscodePhase (s : St) :
    (vscodePhase s).inputs = s.inputs ∧
    promptCount (vscodePhase s).events = promptCount s.events := by
  simp [vscodePhase, St.emit, promptCount_append, promptCount]

theorem pcFacts_createRepoPhase (ok : Bool) (user name vis : String) (s : St) :
    (createRepoPhase ok user name vis s).inputs = s.inputs ∧
    promptCount (createRepoPhase ok user name vis s).events =
      promptCount s.events := by
  unfold createRepoPhase
  cases ok <;> simp [St.emit, promptCount_append, promptCount]

theorem pcFacts_checkVersionPhase (v : Nat × Nat) (s : St) :
    (∀ m, checkVersionPhase v s = .inl m →
      promptCount m.events = promptCount s.events) ∧
    (∀ s', checkVersionPhase v s = .inr s' → s' = s) := by
  unfold checkVersionPhase
  by_cases hv : versionLt38 v <;>
    simp [hv, St.emit, promptCount_append, promptCount]

theorem pcFacts_conflictPhase (g : Bool) (r : String) (s : St) :
    (∀ m, conflictPhase g r s = .inl m →
      promptCount m.events = promptCount s.events) ∧
    (∀ s', conflictPhase g r s = .inr s' →
      s'.inputs = s.inputs ∧ promptCount s'.events = promptCount s.events) := by
  unfold conflictPhase is_git_repo has_origin_remote
  cases g <;> by_cases ho : "origin" ∈ pySplit r <;>
    simp [ho, St.emit, St.emits, promptCount_append, promptCount]

theorem pcFacts_noPushPhase (s : St) :
    (∀ m, noPushPhase s = .inl m →
      promptCount m.events = promptCount s.events) ∧
    (∀ s', noPushPhase s = .inr s' →
      s'.inputs = s.inputs ∧ promptCount s'.events = promptCount s.events) := by
  unfold noPushPhase
  split <;> simp [St.emit, St.emits, promptCount_append, promptCount]

theorem pcFacts_venvPhase (s : St) :
    (∀ m, venvPhase s = .inl m →
      promptCount m.events = promptCount s.events) ∧
    (∀ s', venvPhase s = .inr s' →
      s'.inputs = s.inputs ∧ promptCount s'.events = promptCount s.events) := by
  unfold venvPhase
  by_cases h1 : s.fs.pyproject <;> by_cases h2 : s.fs.venv <;>
    by_cases h3 : s.fs.requirements <;> by_cases h4 : s.fs.templatePy <;>
    simp [h1, h2, h3, h4, St.emit, promptCount_append, promptCount]

theorem pcFacts_localSetup (u g : Bool) (s : St) :
    (∀ m, localSetup u g s = .inl m →
      promptCount m.events = promptCount s.events) ∧
    (∀ s', localSetup u g s = .inr s' →
      s'.inputs = s.inputs ∧ promptCount s'.events = promptCount s.events) := by
  unfold localSetup
  rcases hvv : venvPhase (basicFilesPhase (initUvPhase u g s)) with m | s1
  · constructor
    · intro m' hm'
      simp only [hvv] at hm'
      cases hm'
      rw [(pcFacts_venvPhase _).1 m hvv, (pcFacts_basicFilesPhase _).2,
        (pcFacts_initUvPhase u g s).2]
    · intro s' hs'
      simp only [hvv] at hs'
      simp at hs'
  · constructor
    · intro m' hm'
      simp only [hvv] at hm'
      simp at hm'
    · intro s' hs'
      simp only [hvv] at hs'
      cases hs'
      constructor
      · rw [(pcFacts_vscodePhase s1).1, ((pcFacts_venvPhase _).2 s1 hvv).1,
          (pcFacts_basicFilesPhase _).1, (pcFacts_initUvPhase u g s).1]
      · rw [(pcFacts_vscodePhase s1).2, ((pcFacts_venvPhase _).2 s1 hvv).2,
          (pcFacts_basicFilesPhase _).2, (pcFacts_initUvPhase u g s).2]

theorem budget_readInput (msg : String) (s : St) (pre rest : List InputEvent)
    (h : s.inputs = pre ++ .interrupt :: rest) (hpre : textOnly pre) :
    (∃ m, readInput msg s = .inl m ∧
      m.outcome = .uncaught "KeyboardInterrupt") ∨
    (∃ t pre' s', pre = .text t :: pre' ∧ readInput msg s = .inr (t, s') ∧
      s'.inputs = pre' ++ .interrupt :: rest ∧
      promptCount s'.events = promptCount s.events + 1) := by
  cases pre with
  | nil =>
    left
    exact ⟨⟨.uncaught "KeyboardInterrupt", (s.emit (.prompt msg)).events⟩,
      by simp [readInput, h, St.emit], rfl⟩
  | cons i pre' =>
    obtain ⟨t, rfl⟩ := hpre i (List.mem_cons_self i pre')
    right
    refine ⟨t, pre',
      { s.emit (.prompt msg) with inputs := pre' ++ .interrupt :: rest },
      rfl, by simp [readInput, h, St.emit], by simp [St.emit], ?_⟩
    simp [St.emit, promptCount_append, promptCount]

theorem budget_repoNameLoop (pre rest : List InputEvent) (evs : List Event)
    (fs : FsB) :
    textOnly pre →
    (∃ m, repoNameLoop evs fs (pre ++ .interrupt :: rest) = .inl m ∧
      m.outcome = .uncaught "KeyboardInterrupt") ∨
    (∃ name s' pre',
      repoNameLoop evs fs (pre ++ .interrupt :: rest) = .inr (name, s') ∧
      s'.inputs = pre' ++ .interrupt :: rest ∧ textOnly pre' ∧
      promptCount s'.events + pre'.length ≤ promptCount evs + pre.length) := by
  induction pre generalizing evs with
  | nil =>
    intro _
    left
    exact ⟨⟨.uncaught "KeyboardInterrupt",
      evs ++ [.prompt "Enter GitHub repository name: "]⟩,
      by simp [repoNameLoop], rfl⟩
  | cons i pre' ih =>
    intro hpre
    obtain ⟨t, rfl⟩ := hpre i (List.mem_cons_self i pre')
    have hpre' : textOnly pre' := fun j hj => hpre j (List.mem_cons_of_mem _ hj)
    by_cases hv : validRepoName (pyStrip t)
    · right
      refine ⟨pyStrip t,
        ⟨evs ++ [.prompt "Enter GitHub repository name: "], fs,
          pre' ++ .interrupt :: rest⟩, pre',
        ?_, rfl, hpre', ?_⟩
      · rw [List.cons_append, repoNameLoop]
        simp [hv]
      · simp [promptCount_append, promptCount]
        omega
    · have hstep :
          repoNameLoop evs fs ((InputEvent.text t :: pre') ++
            .interrupt :: rest) =
          repoNameLoop ((evs ++ [.prompt "Enter GitHub repository name: "]) ++
            [.printed "Invalid name - only letters, numbers, - and _ allowed"])
            fs (pre' ++ .interrupt :: rest) := by
        rw [List.cons_append, repoNameLoop]
        simp [hv]
      rw [hstep]
      rcases ih _ hpre' with ⟨m, hm, ho⟩ | ⟨name, s', pre2, hr, hi, ht, hb⟩
      · exact Or.inl ⟨m, hm, ho⟩
      · refine Or.inr ⟨name, s', pre2, hr, hi, ht, ?_⟩
        have hb2 := hb
        rw [promptCount_append, promptCount_append] at hb2
        simp only [promptCount, List.filter, List.length] at hb2 ⊢
        simp at hb2
        omega

theorem promptCount_emit (s : St) (e : Event) :
    promptCount (s.emit e).events = promptCount s.events + promptCount [e] := by
  simp [St.emit, promptCount_append]

theorem MainRes_events_mk (o : MOutcome) (e : List Event) :
    (⟨o, e⟩ : MainRes).events = e := rfl

theorem MainRes_outcome_mk (o : MOutcome) (e : List Event) :
    (⟨o, e⟩ : MainRes).outcome = o := rfl

theorem St_events_mk (e : List Event) (f : FsB) (i : List InputEvent) :
    (⟨e, f, i⟩ : St).events = e := rfl

theorem St_inputs_mk (e : List Event) (f : FsB) (i : List InputEvent) :
    (⟨e, f, i⟩ : St).inputs = i := rfl

theorem budget_setup_git_config (a b : String) (s : St)
    (pre rest : List InputEvent)
    (h : s.inputs = pre ++ .interrupt :: rest) (hpre : textOnly pre) :
    (∃ m, setup_git_config a b s = .inl m ∧
      m.outcome = .uncaught "KeyboardInterrupt") ∨
    (∃ s' pre', setup_git_config a b s = .inr s' ∧
      s'.inputs = pre' ++ .interrupt :: rest ∧ textOnly pre' ∧
      promptCount s'.events + pre'.length ≤
        promptCount s.events + pre.length) := by
  unfold setup_git_config
  by_cases h1 : pyStrip a = ""
  · by_cases h2 : pyStrip b = ""
    · simp only [if_pos h1, if_pos h2]
      rcases budget_readInput "Enter your GitHub email: "
          (((((s.emit (.printed "⚙️ Checking Git configuration...")).emit
            (.probe "git config --global user.name")).emit
            (.probe "gh api user -q .login")).emit
            (.mutStep "git config --global user.name <github-login>")).emit
            (.probe "git config --global user.email"))
          pre rest (by simp [St.emit, h]) hpre with
        ⟨m, hm, ho⟩ | ⟨t, pre', s', hpe, hri, hi', hp'⟩
      · rw [hm]
        exact Or.inl ⟨m, rfl, ho⟩
      · rw [hri]
        refine Or.inr
          ⟨s'.emit (.mutStep "git config --global user.email <email>"),
            pre', rfl, by simp [St.emit, hi'], ?_, ?_⟩
        · exact fun j hj =>
            hpre j (by rw [hpe]; exact List.mem_cons_of_mem _ hj)
        · have hq : promptCount (s'.emit
              (.mutStep "git config --global user.email <email>")).events =
              promptCount s'.events := by
            rw [promptCount_emit]
            simp [promptCount]
          rw [hq, hp']
          simp only [St.emit, promptCount_append]
          have hlen : pre.length = pre'.length + 1 := by rw [hpe]; rfl
          simp [promptCount]
          omega
    · simp only [if_pos h1, if_neg h2]
      right
      refine ⟨_, pre, rfl, by simp [St.emit, h], hpre, ?_⟩
      simp [St.emit, promptCount_append, promptCount]
  · by_cases h2 : pyStrip b = ""
    · simp only [if_neg h1, if_pos h2]
      rcases budget_readInput "Enter your GitHub email: "
          (((s.emit (.printed "⚙️ Checking Git configuration...")).emit
            (.probe "git config --global user.name")).emit
            (.probe "git config --global user.email"))
          pre rest (by simp [St.emit, h]) hpre with
        ⟨m, hm, ho⟩ | ⟨t, pre', s', hpe, hri, hi', hp'⟩
      · rw [hm]
        exact Or.inl ⟨m, rfl, ho⟩
      · rw [hri]
        refine Or.inr
          ⟨s'.emit (.mutStep "git config --global user.email <email>"),
            pre', rfl, by simp [St.emit, hi'], ?_, ?_⟩
        · exact fun j hj =>
            hpre j (by rw [hpe]; exact List.mem_cons_of_mem _ hj)
        · have hq : promptCount (s'.emit
              (.mutStep "git config --global user.email <email>")).events =
              promptCount s'.events := by
            rw [promptCount_emit]
            simp [promptCount]
          rw [hq, hp']
          simp only [St.emit, promptCount_append]
          have hlen : pre.length = pre'.length + 1 := by rw [hpe]; rfl
          simp [promptCount]
          omega
    · simp only [if_neg h1, if_neg h2]
      right
      refine ⟨_, pre, rfl, by simp [St.emit, h], hpre, ?_⟩
      simp [St.emit, promptCount_append, promptCount]

theorem budget_pushTail (env : Env) (name vis : String) (s : St)
    (pre rest : List InputEvent)
    (h : s.inputs = pre ++ .interrupt :: rest) (hpre : textOnly pre) :
    (pushTail env name vis s).outcome = .uncaught "KeyboardInterrupt" ∨
    promptCount (pushTail env name vis s).events ≤
      promptCount s.events + pre.length := by
  unfold pushTail
  rcases hgh : check_gh_installed env.ghInstalled s with ⟨bb, s1⟩
  have hf := pcFacts_check_gh env.ghInstalled s
  rw [hgh] at hf
  obtain ⟨hin1, hpc1⟩ := hf
  dsimp only at hin1 hpc1
  cases bb
  · simp only [hgh]
    right
    omega
  · simp only [hgh]
    have hga := pcFacts_github_auth env.authenticated s1
    have hs2 : (github_auth env.authenticated s1).inputs =
        pre ++ .interrupt :: rest := by rw [hga.1, hin1, h]
    rcases budget_setup_git_config env.gitUserName env.gitUserEmail
        (github_auth env.authenticated s1) pre rest hs2 hpre with
      ⟨m, hm, ho⟩ | ⟨s3, pre3, hcfg, hi3, ht3, hb3⟩
    · rw [hm]
      exact Or.inl ho
    · rw [hcfg]
      have hg2 := hga.2
      rcases hls : localSetup env.uvInstalled env.uvInitGitignore s3 with m | s4
      · right
        have hl :=
          (pcFacts_localSetup env.uvInstalled env.uvInitGitignore s3).1 m hls
        simp only [hls]
        omega
      · right
        have hl :=
          ((pcFacts_localSetup env.uvInstalled env.uvInitGitignore s3).2
            s4 hls).2
        have hcr := (pcFacts_createRepoPhase env.commitOk env.githubUsername
          name vis s4).2
        simp only [hls, MainRes_events_mk]
        rw [promptCount_emit, promptCount_emit, hcr]
        have hz1 : promptCount [Event.printed "✅ Setup Complete!"] = 0 := by
          simp [promptCount]
        have hz2 : promptCount [Event.printed "➤ Local path: ."] = 0 := by
          simp [promptCount]
        omega

theorem budget_mainTail (env : Env) (s : St) (pre rest : List InputEvent)
    (h : s.inputs = pre ++ .interrupt :: rest) (hpre : textOnly pre) :
    (mainTail env s).outcome = .uncaught "KeyboardInterrupt" ∨
    promptCount (mainTail env s).events ≤
      promptCount s.events + pre.length := by
  unfold mainTail
  cases hnp : env.noPush
  · simp only [Bool.false_eq_true, if_false]
    rw [h]
    rcases budget_repoNameLoop pre rest s.events s.fs hpre with
      ⟨m, hm, ho⟩ | ⟨nm, s1, pre1, hloop, hi1, ht1, hb1⟩
    · rw [hm]
      exact Or.inl ho
    · rw [hloop]
      dsimp only
      rcases budget_readInput "Visibility [public/private] (default: public): "
          s1 pre1 rest hi1 ht1 with
        ⟨m, hm2, ho2⟩ | ⟨t, pre2, s2, hpe2, hri, hi2, hp2⟩
      · rw [hm2]
        exact Or.inl ho2
      · rw [hri]
        dsimp only
        have ht2 : textOnly pre2 := fun j hj =>
          ht1 j (by rw [hpe2]; exact List.mem_cons_of_mem _ hj)
        rcases budget_pushTail env nm (chooseVisibility t) s2 pre2 rest
            hi2 ht2 with hL | hR
        · exact Or.inl hL
        · right
          have hlen : pre1.length = pre2.length + 1 := by rw [hpe2]; rfl
          omega
  · simp only [if_true]
    rcases hph : noPushPhase s with m | s1
    · right
      have hm := (pcFacts_noPushPhase s).1 m hph
      simp only [hph]
      omega
    · simp only [hph]
      obtain ⟨hi1, hp1⟩ := (pcFacts_noPushPhase s).2 s1 hph
      rcases hls : localSetup env.uvInstalled env.uvInitGitignore s1 with m | s2
      · right
        have hm :=
          (pcFacts_localSetup env.uvInstalled env.uvInitGitignore s1).1 m hls
        simp only [hls]
        omega
      · right
        obtain ⟨hi2, hp2⟩ :=
          (pcFacts_localSetup env.uvInstalled env.uvInitGitignore s1).2 s2 hls
        simp only [hls, MainRes_events_mk]
        rw [promptCount_emit, promptCount_emit]
        have hz1 : promptCount
            [Event.printed "✅ Setup Complete! (no GitHub repo created)"] = 0 := by
          simp [promptCount]
        have hz2 : promptCount [Event.printed "➤ Local path: ."] = 0 := by
          simp [promptCount]
        omega

/-- C4 as amended: user cancellation is caught nowhere in the workflow.
First part, over every environment: if the stdin script is some typed
answers followed by an interruption, then either the run never issues enough
prompts to reach the interruption (each consumed answer corresponds to
exactly one prompt event), or — at whichever prompt the interruption is
delivered: any iteration of the repository-name loop, the visibility prompt,
or the email prompt — the `KeyboardInterrupt` escapes `main` uncaught, so
the interpreter prints a stack trace and there is no clean exit code and no
distinct message. Second part: at the first prompt of a push-mode run the
full trace is preserved up to the interruption — the banner, the repository
probe and the issued prompt remain, i.e. completed steps are not rolled
back. -/
theorem c4_amended_interrupt_uncaught :
    (∀ (env : Env) (pre rest : List InputEvent),
      env.inputs = pre ++ .interrupt :: rest → textOnly pre →
      (mainExec env).outcome = .uncaught "KeyboardInterrupt" ∨
      promptCount (mainExec env).events ≤ pre.length) ∧
    (∀ (env : Env) (rest : List InputEvent),
      versionLt38 env.version = false → env.gitRepo = false →
      env.noPush = false → env.inputs = .interrupt :: rest →
      mainExec env =
        ⟨.uncaught "KeyboardInterrupt",
          [.printed "🚀 Python Project Automator - Utkarsh Gaikwad 🚀",
           .printed "Platform detected: Linux",
           .probe "git rev-parse --is-inside-work-tree",
           .prompt "Enter GitHub repository name: "]⟩) := by
  constructor
  · intro env pre rest h hpre
    unfold mainExec mainFrom
    have h0 : promptCount
        ([.printed "🚀 Python Project Automator - Utkarsh Gaikwad 🚀",
          .printed "Platform detected: Linux"] : List Event) = 0 := by
      simp [promptCount]
    rcases hcv : checkVersionPhase env.version
        ⟨[.printed "🚀 Python Project Automator - Utkarsh Gaikwad 🚀",
          .printed "Platform detected: Linux"], env.fs0, env.inputs⟩ with m | s1
    · right
      have hm := (pcFacts_checkVersionPhase _ _).1 m hcv
      rw [St_events_mk] at hm
      simp only [hcv]
      omega
    · have hs1 : s1 = ⟨[.printed "🚀 Python Project Automator - Utkarsh Gaikwad 🚀",
          .printed "Platform detected: Linux"], env.fs0, env.inputs⟩ :=
        (pcFacts_checkVersionPhase _ _).2 s1 hcv
      simp only [hcv]
      rcases hcf : conflictPhase env.gitRepo env.gitRemoteStdout s1 with m | s2
      · right
        have hm := (pcFacts_conflictPhase _ _ _).1 m hcf
        rw [hs1, St_events_mk] at hm
        simp only [hcf]
        omega
      · simp only [hcf]
        obtain ⟨hi2, hp2⟩ := (pcFacts_conflictPhase _ _ _).2 s2 hcf
        rw [hs1] at hi2 hp2
        have hin : s2.inputs = pre ++ .interrupt :: rest := by
          rw [hi2, St_inputs_mk, h]
        have hpz : promptCount s2.events = 0 := by
          rw [hp2]
          simp [promptCount]
        rcases budget_mainTail env s2 pre rest hin hpre with hL | hR
        · exact Or.inl hL
        · right
          omega
  · intro env rest hver hg hnp hin
    simp [mainExec, mainFrom, mainTail, pushTail, checkVersionPhase, hver,
      conflictPhase, is_git_repo, hg, hnp, hin, repoNameLoop, St.emit]

/-- Witness for C4 as amended: the interruption arrives at the very first
prompt of a default push-mode run. -/
theorem c4_amended_interrupt_uncaught_witness :
    envInterrupted.inputs = ([] : List InputEvent) ++ .interrupt :: [] ∧
    textOnly ([] : List InputEvent) ∧
    ((mainExec envInterrupted).outcome = .uncaught "KeyboardInterrupt" ∨
      promptCount (mainExec envInterrupted).events ≤
        ([] : List InputEvent).length) :=
  ⟨rfl, fun i hi => absurd hi (List.not_mem_nil i),
    c4_amended_interrupt_uncaught.1 envInterrupted [] [] rfl
      (fun i hi => absurd hi (List.not_mem_nil i))⟩
